import Mathlib

/-!
Shallow embedding of the file-share client (`src/client/src/App.tsx`).

The React component's session state is modelled as an explicit record
`AppState`; each event handler of the source becomes a pure transition
function.  Asynchronous operations (upload, info lookup, download) are split
into a synchronous start phase (the code executed before the HTTP request is
dispatched) and a finish phase parameterised by the server's response; the
composed function returns the final state together with a Boolean recording
whether an HTTP request was dispatched.  JavaScript strings are modelled as
Lean strings (sequences of Unicode scalar values); `toUpperCase`/`toLowerCase`
are modelled per character (the special multi-character Unicode casings do not
affect the restricted alphabets used here); floating-point arithmetic in the
progress computation is modelled by exact rational arithmetic.
-/

namespace FileShare

/-- A quotation-mark character (U+0022), named to build the strings and
character tests of `extractFilename`. -/
def dquote : Char := Char.ofNat 34

/-- An apostrophe character (U+0027), as matched by the `['"]` classes and the
`replace(/['"]/g, '')` call in `extractFilename` (App.tsx line 62). -/
def apos : Char := Char.ofNat 39

/-- App.tsx line 21: the active tab. -/
inductive Tab
  | upload
  | download
deriving DecidableEq

/-- A locally selected file handle: the fields of the DOM `File` object the
component reads (`name`, `size`). -/
structure JSFile where
  name : String
  size : Nat
deriving DecidableEq

/-- App.tsx lines 6-10: the parsed body of a successful upload response. -/
structure FileUploadResponse where
  code : String
  expires_at : String
  file_size : Int
deriving DecidableEq

/-- App.tsx lines 12-18: the parsed body of a successful info lookup. -/
structure FileInfo where
  original_name : String
  file_size : Int
  content_type : String
  expires_at : String
  time_remaining : Int
deriving DecidableEq

/-- App.tsx lines 21-34: the component's `useState` hooks, gathered into one
session-state record.  `uploadProgress` is an integer because it is produced
by `Math.round`. -/
structure AppState where
  activeTab : Tab
  uploadFile : Option JSFile
  uploadResult : Option FileUploadResponse
  downloadCode : String
  fileInfo : Option FileInfo
  loading : Bool
  error : String
  success : String
  dragOver : Bool
  copied : Bool
  uploadProgress : Int
  showQRScanner : Bool
  showQRGenerator : Bool
  qrCodeDataUrl : String
deriving DecidableEq

/-- App.tsx line 38: `const MAX_FILE_SIZE = 50 * 1024 * 1024`. -/
def MAX_FILE_SIZE : Nat := 50 * 1024 * 1024

/-- App.tsx line 125: the message built from
`formatFileSize(MAX_FILE_SIZE)`.  `formatFileSize` (lines 40-46) evaluates at
52428800 to the exponent `i = 2` and the exact quotient `50`, hence the label
`"50 MB"`; the floating-point `Math.log`/`Math.pow` computation is abstracted
to this concrete value. -/
def maxFileSizeMsg : String := "File too large. Max is 50 MB"

/-- App.tsx lines 118-130: `handleFileSelect`.  Clears the banners, the
previous upload result and the copied flag, then either rejects an oversized
file (setting only the error banner on top of those clears) or stores the
file handle.  No HTTP request is involved (the function's type has no request
component). -/
def handleFileSelect (s : AppState) (file : JSFile) : AppState :=
  let s1 : AppState :=
    { s with error := "", success := "", uploadResult := none, copied := false }
  if file.size > MAX_FILE_SIZE then { s1 with error := maxFileSizeMsg }
  else { s1 with uploadFile := some file }

/-- Per-character model of JavaScript `String.prototype.toUpperCase`
(adequate on the ASCII-and-beyond inputs considered here; multi-character
special casings are abstracted). -/
def jsToUpper (s : String) : String := ⟨s.data.map Char.toUpper⟩

/-- The character class `[A-Z0-9]` of the download-code input (App.tsx
line 454) and of the QR URL pattern. -/
def isCodeChar (c : Char) : Bool :=
  decide ((65 ≤ c.toNat ∧ c.toNat ≤ 90) ∨ (48 ≤ c.toNat ∧ c.toNat ≤ 57))

/-- App.tsx line 454: the download-code input's `onChange` expression
`e.target.value.toUpperCase().replace(/[^A-Z0-9]/g, '').slice(0, 8)`. -/
def normalizeCode (input : String) : String :=
  ⟨((jsToUpper input).data.filter isCodeChar).take 8⟩

/-- App.tsx lines 449-455: typing into the download-code input stores the
normalized value.  Note that the handler touches no other state field. -/
def downloadCodeChange (s : AppState) (input : String) : AppState :=
  { s with downloadCode := normalizeCode input }

/-- The spec's own words for the input normalization (§4.4 / §8): "the input
uppercased, with every character outside `[A-Z0-9]` deleted, truncated to at
most 8 characters" — stated as a second definition to compare with the
source-derived `normalizeCode`. -/
def normalizeCodeSpec (input : String) : String :=
  ⟨List.take 8 (List.filter isCodeChar (List.map Char.toUpper input.data))⟩

/-- JavaScript truthiness of `code.trim()`: `!code.trim()` holds exactly when
every character of the string is whitespace. -/
def isBlank (s : String) : Bool := s.data.all Char.isWhitespace

/-! ### Upload (App.tsx lines 137-194) -/

/-- JavaScript `Math.round` on a non-negative value: half-up rounding,
`⌊x + 1/2⌋` (ties go toward positive infinity, as in ECMA-262). -/
def jsRound (x : ℚ) : ℤ := ⌊x + 1 / 2⌋

/-- App.tsx line 152: `Math.round((event.loaded / event.total) * 100)`, with
the double-precision arithmetic modelled exactly over `ℚ`. -/
def uploadProgressValue (loaded total : ℕ) : ℤ :=
  jsRound ((loaded : ℚ) / (total : ℚ) * 100)

/-- App.tsx lines 150-155: `xhr.upload.onprogress`.  Writes the rounded
percentage when the event's length is computable, otherwise does nothing. -/
def onUploadProgress (s : AppState) (lengthComputable : Bool)
    (loaded total : ℕ) : AppState :=
  if lengthComputable then
    { s with uploadProgress := uploadProgressValue loaded total }
  else s

/-- The upload response text as the code consumes it: either `JSON.parse`
throws (`notJson`), or it yields a value `v` — read through the
`FileUploadResponse` interface on the 2xx path without validation — whose
`detail` property (as read on the non-2xx path) is `detail`; `some ""` models
a present-but-empty detail string. -/
inductive UploadBody
  | notJson
  | json (v : FileUploadResponse) (detail : Option String)
deriving DecidableEq

/-- Terminal event of the XMLHttpRequest: `onload` with a status and body,
`onerror`, or `ontimeout` (App.tsx lines 157-176). -/
inductive UploadOutcome
  | load (status : Nat) (body : UploadBody)
  | netError
  | timeout
deriving DecidableEq

/-- App.tsx lines 166-171: the message of the rejection built for a non-2xx
`onload`: `errorData.detail || 'Upload failed'` when the body parses as JSON
(a missing or empty `detail` is falsy), and
`Upload failed with status <status>` when parsing throws. -/
def uploadErrorMsg (status : Nat) (body : UploadBody) : String :=
  match body with
  | .json _ (some d) => if d = "" then "Upload failed" else d
  | .json _ none => "Upload failed"
  | .notJson => "Upload failed with status " ++ toString status

/-- App.tsx lines 137-141: the synchronous prefix of `uploadFileToServer`
executed before `xhr.send`: bail out when no file is selected, otherwise set
the busy flag, clear the error banner, reset progress, and dispatch.  The
returned Boolean records whether the HTTP request was dispatched.  Note that
the `loading` flag is not consulted. -/
def uploadStart (s : AppState) : AppState × Bool :=
  match s.uploadFile with
  | none => (s, false)
  | some _ => ({ s with loading := true, error := "", uploadProgress := 0 }, true)

/-- App.tsx lines 157-193: resolution of the upload promise and the
`catch`/`finally` blocks.  On 2xx with parseable JSON: store the result, show
the success banner, clear the file handle and progress.  On any rejection:
set the error banner to the rejection's message and reset progress.  In every
case clear the busy flag (`finally`). -/
def uploadFinish (s : AppState) (o : UploadOutcome) : AppState :=
  match o with
  | .load status body =>
    if 200 ≤ status ∧ status < 300 then
      match body with
      | .json v _ =>
        { s with uploadResult := some v, success := "Uploaded!",
                 uploadFile := none, uploadProgress := 0, loading := false }
      | .notJson =>
        { s with error := "Invalid response format", uploadProgress := 0,
                 loading := false }
    else
      { s with error := uploadErrorMsg status body, uploadProgress := 0,
               loading := false }
  | .netError =>
    { s with error := "Network error during upload", uploadProgress := 0,
             loading := false }
  | .timeout =>
    { s with error := "Upload timeout", uploadProgress := 0, loading := false }

/-- App.tsx lines 137-194: `uploadFileToServer`, composed from its start and
finish phases; the Boolean records whether an HTTP request was dispatched. -/
def uploadFileToServer (s : AppState) (o : UploadOutcome) : AppState × Bool :=
  match uploadStart s with
  | (s1, false) => (s1, false)
  | (s1, true) => (uploadFinish s1 o, true)

/-! ### Info lookup (App.tsx lines 196-213) -/

/-- The body of a non-ok `fetch` response as consumed by
`(await response.json()).detail || fallback`: JSON with a `detail` string,
JSON without one (or with a falsy one, modelled by `some ""`), or unparseable
JSON — in which case `response.json()` rejects and the caught error carries
the JSON parser's own message. -/
inductive FailBody
  | withDetail (d : String)
  | noDetail
  | notJson (msg : String)
deriving DecidableEq

/-- `(await response.json()).detail || fallback`, and the message of the
caught error when `response.json()` itself rejects. -/
def jsErrMsg (b : FailBody) (fallback : String) : String :=
  match b with
  | .withDetail d => if d = "" then fallback else d
  | .noDetail => fallback
  | .notJson m => m

/-- Outcome of the `GET /info/{code}` exchange: an ok response whose body
parses as `FileInfo`, an ok response with an unparseable body, a non-ok
response, or a transport-level rejection of `fetch` itself. -/
inductive InfoResp
  | ok (info : FileInfo)
  | okNotJson (msg : String)
  | fail (body : FailBody)
  | netError (msg : String)
deriving DecidableEq

/-- App.tsx lines 196-199: the synchronous prefix of `fetchFileInfo` before
the `fetch` call: bail out when the trimmed code is empty, otherwise set the
busy flag and clear the error banner.  The `loading` flag is not consulted. -/
def fetchStart (s : AppState) (code : String) : AppState × Bool :=
  if isBlank code then (s, false)
  else ({ s with loading := true, error := "" }, true)

/-- App.tsx lines 201-212: completion of `fetchFileInfo`: store the parsed
info on success; on any caught error set the error banner and clear the
stored info; always clear the busy flag. -/
def fetchFinish (s : AppState) (resp : InfoResp) : AppState :=
  match resp with
  | .ok info => { s with fileInfo := some info, loading := false }
  | .okNotJson m => { s with error := m, fileInfo := none, loading := false }
  | .fail b =>
    { s with error := jsErrMsg b "File not found", fileInfo := none,
             loading := false }
  | .netError m => { s with error := m, fileInfo := none, loading := false }

/-- App.tsx lines 196-213: `fetchFileInfo`, composed from its phases. -/
def fetchFileInfo (s : AppState) (code : String) (resp : InfoResp) :
    AppState × Bool :=
  match fetchStart s code with
  | (s1, false) => (s1, false)
  | (s1, true) => (fetchFinish s1 resp, true)

/-! ### Filename extraction (App.tsx lines 55-74)

The two regular expressions of `extractFilename` are modelled by direct
left-to-right scans with the exact backtracking behaviour of the JavaScript
engine on these patterns, and `decodeURIComponent` by the ECMA-262 `Decode`
algorithm (percent-escapes decoded as strict UTF-8, throwing — modelled as
`none` — on any malformed escape or byte sequence). -/

/-- Membership in the class `['"]`. -/
def isQuote (c : Char) : Bool := c = dquote || c = apos

/-- The negated class `[^;=\n]` of `filename[^;=\n]*=`. -/
def notStop1 (c : Char) : Bool := c != ';' && c != '=' && c != '\n'

/-- The negated class `[^;\n]` used by both capture groups. -/
def notStop2 (c : Char) : Bool := c != ';' && c != '\n'

/-- The lazy quoted alternative `(['"]).*?\2` after its opening quote `q`:
the shortest run of non-line-terminator characters up to a closing `q`
(`.` does not match `\n` or `\r`; the rarer terminators U+2028/U+2029 are
not representable in the inputs considered).  `none` when no closing quote
precedes a line terminator or the end. -/
def lazyQuoted (q : Char) : List Char → Option (List Char)
  | [] => none
  | c :: tl =>
    if c = q then some []
    else if c = '\n' ∨ c = '\r' then none
    else (lazyQuoted q tl).map (c :: ·)

/-- Capture group 1 of `filename[^;=\n]*=((['"]).*?\2|[^;\n]*)`, evaluated on
the text after the `=`: try the quoted alternative first (the group then
includes both quotes), falling back to the greedy `[^;\n]*`. -/
def group1At (afterEq : List Char) : List Char :=
  match afterEq with
  | [] => []
  | q :: tl =>
    if isQuote q then
      match lazyQuoted q tl with
      | some inner => q :: (inner ++ [q])
      | none => afterEq.takeWhile notStop2
    else afterEq.takeWhile notStop2

/-- The literal `filename`. -/
def fnKey : List Char := "filename".data

/-- Leftmost match of `/filename[^;=\n]*=((['"]).*?\2|[^;\n]*)/` (App.tsx
line 58), returning capture group 1.  At each start position the literal
`filename` must be followed by a run of `[^;=\n]` and then `=`; since `=` is
excluded from the class, this run is exactly the characters before the first
`;`, `=` or `\n`, and the attempt fails unless that first stop character is
`=`.  When the attempt fails the scan resumes one character further, as the
engine does. -/
def scan1 : List Char → Option (List Char)
  | [] => none
  | cs@(_ :: tl) =>
    if fnKey.isPrefixOf cs then
      match (cs.drop 8).dropWhile notStop1 with
      | '=' :: afterEq => some (group1At afterEq)
      | _ => scan1 tl
    else scan1 tl

/-- The literal `filename*=UTF-8''` of the second regex (App.tsx line 66). -/
def starKey : List Char := "filename*=UTF-8".data ++ [apos, apos]

/-- Leftmost match of `/filename\*=UTF-8''([^;\n]*)/`, returning capture
group 1. -/
def scanStar : List Char → Option (List Char)
  | [] => none
  | cs@(_ :: tl) =>
    if starKey.isPrefixOf cs then
      some ((cs.drop starKey.length).takeWhile notStop2)
    else scanStar tl

/-- `match[1].replace(/['"]/g, '')` (App.tsx line 62). -/
def stripQuotes (cs : List Char) : List Char := cs.filter (fun c => !isQuote c)

/-- Value of a hexadecimal digit, case-insensitive. -/
def hexVal (c : Char) : Option Nat :=
  if 48 ≤ c.toNat ∧ c.toNat ≤ 57 then some (c.toNat - 48)
  else if 65 ≤ c.toNat ∧ c.toNat ≤ 70 then some (c.toNat - 55)
  else if 97 ≤ c.toNat ∧ c.toNat ≤ 102 then some (c.toNat - 87)
  else none

/-- One `%XX` escape: its byte value and the remaining input; `none` when the
`%` is not followed by two hexadecimal digits. -/
def pctByte : List Char → Option (Nat × List Char)
  | '%' :: h1 :: h2 :: rest =>
    match hexVal h1, hexVal h2 with
    | some a, some b => some (16 * a + b, rest)
    | _, _ => none
  | _ => none

/-- A continuation escape whose byte must lie in `[lo, hi]`; returns the
six payload bits `byte - 128`. -/
def contByte (lo hi : Nat) (cs : List Char) : Option (Nat × List Char) :=
  match pctByte cs with
  | some (b, rest) => if lo ≤ b ∧ b ≤ hi then some (b - 128, rest) else none
  | none => none

/-- Decode one maximal UTF-8 escape sequence starting at a `%`: the decoded
scalar value and the remaining input, `none` on any malformed escape,
ill-formed leading byte, out-of-range continuation byte, overlong encoding or
surrogate half — the cases in which ECMA-262 `Decode` throws `URIError`. -/
def decodeSeq (cs : List Char) : Option (Char × List Char) :=
  match pctByte cs with
  | none => none
  | some (b, r1) =>
    if b < 128 then some (Char.ofNat b, r1)
    else if 194 ≤ b ∧ b ≤ 223 then
      match contByte 128 191 r1 with
      | some (p2, r2) => some (Char.ofNat ((b - 192) * 64 + p2), r2)
      | none => none
    else if b = 224 ∨ (225 ≤ b ∧ b ≤ 236) ∨ b = 237 ∨ b = 238 ∨ b = 239 then
      match contByte (if b = 224 then 160 else 128)
          (if b = 237 then 159 else 191) r1 with
      | some (p2, r2) =>
        match contByte 128 191 r2 with
        | some (p3, r3) =>
          some (Char.ofNat ((b - 224) * 4096 + p2 * 64 + p3), r3)
        | none => none
      | none => none
    else if b = 240 ∨ (241 ≤ b ∧ b ≤ 243) ∨ b = 244 then
      match contByte (if b = 240 then 144 else 128)
          (if b = 244 then 143 else 191) r1 with
      | some (p2, r2) =>
        match contByte 128 191 r2 with
        | some (p3, r3) =>
          match contByte 128 191 r3 with
          | some (p4, r4) =>
            some (Char.ofNat ((b - 240) * 262144 + p2 * 4096 + p3 * 64 + p4), r4)
          | none => none
        | none => none
      | none => none
    else none

/-- The decoding loop; the fuel argument (initially the input length) only
serves termination — every step consumes at least one character, so the fuel
never runs out on the initial call. -/
def decodeLoop : Nat → List Char → Option (List Char)
  | _, [] => some []
  | 0, _ :: _ => none
  | fuel + 1, c :: rest =>
    if c = '%' then
      match decodeSeq (c :: rest) with
      | some (ch, rest2) => (decodeLoop fuel rest2).map (ch :: ·)
      | none => none
    else (decodeLoop fuel rest).map (c :: ·)

/-- `decodeURIComponent`, as the ECMA-262 `Decode` algorithm on the reserved
set ∅: `none` models a thrown `URIError`. -/
def decodeURIComponentM (cs : List Char) : Option (List Char) :=
  decodeLoop cs.length cs

/-- `decodeURIComponent(x) || 'download'` (App.tsx lines 63 and 70): `none`
models the propagated `URIError`; an empty decode is falsy and falls back to
`"download"`. -/
def decodeOrDownload (cs : List Char) : Option String :=
  match decodeURIComponentM cs with
  | none => none
  | some d => some (if d.isEmpty then "download" else ⟨d⟩)

/-- App.tsx lines 66-73: the second (`filename*=`) branch and the final
fallback of `extractFilename`. -/
def starBranch (cs : List Char) : Option String :=
  match scanStar cs with
  | some g => if g.isEmpty then some "download" else decodeOrDownload g
  | none => some "download"

/-- App.tsx lines 55-74: `extractFilename`.  `none` input models a `null`
header; `none` output models a thrown `URIError` escaping the function. -/
def extractFilename (contentDisposition : Option String) : Option String :=
  match contentDisposition with
  | none => some "download"
  | some cd =>
    match scan1 cd.data with
    | some g => if g.isEmpty then starBranch cd.data
                else decodeOrDownload (stripQuotes g)
    | none => starBranch cd.data

/-! ### Download (App.tsx lines 215-255) -/

/-- Outcome of the `POST /download` exchange: an ok response carrying its
`Content-Disposition` header (possibly absent), a non-ok response with a
body, or a transport-level rejection. -/
inductive DownloadResp
  | ok (contentDisposition : Option String)
  | fail (body : FailBody)
  | netError (msg : String)
deriving DecidableEq

/-- The message of the `URIError` thrown by `decodeURIComponent`
(engine-specific wording; V8's).  The claims only rely on it being the
non-empty text that reaches the error banner. -/
def uriErrorMsg : String := "URI malformed"

/-- App.tsx lines 234-236: the fallback from the literal `'download'` to a
previously fetched `fileInfo?.original_name` (skipped when that name is
falsy, i.e. empty).  This resolves the name under which the blob is saved; it
touches no state. -/
def resolvedDownloadName (s : AppState) (fn : String) : String :=
  if fn = "download" then
    match s.fileInfo with
    | some info => if info.original_name = "" then fn else info.original_name
    | none => fn
  else fn

/-- App.tsx lines 215-218: the synchronous prefix of `downloadFile` before
the `fetch` call: bail out when the trimmed stored code is empty, otherwise
set the busy flag and clear the error banner.  The `loading` flag is not
consulted. -/
def downloadStart (s : AppState) : AppState × Bool :=
  if isBlank s.downloadCode then (s, false)
  else ({ s with loading := true, error := "" }, true)

/-- App.tsx lines 220-254: completion of `downloadFile`.  On an ok response,
`extractFilename` runs on the `Content-Disposition` header; if it throws the
`catch` block sets the error banner and nothing else is touched, otherwise
the blob is saved (a DOM effect outside the state), the success banner is
set, and the code field and stored info are cleared.  On a failed response or
transport error the error banner is set and the code field and stored info
are left untouched.  The busy flag is cleared in every case (`finally`). -/
def downloadFinish (s : AppState) (resp : DownloadResp) : AppState :=
  match resp with
  | .ok cd =>
    match extractFilename cd with
    | none => { s with error := uriErrorMsg, loading := false }
    | some _ =>
      { s with success := "Downloaded!", downloadCode := "", fileInfo := none,
               loading := false }
  | .fail b =>
    { s with error := jsErrMsg b "Download failed", loading := false }
  | .netError m => { s with error := m, loading := false }

/-- App.tsx lines 215-255: `downloadFile`, composed from its phases. -/
def downloadFile (s : AppState) (resp : DownloadResp) : AppState × Bool :=
  match downloadStart s with
  | (s1, false) => (s1, false)
  | (s1, true) => (downloadFinish s1 resp, true)

/-! ### QR scan (App.tsx lines 265-274) -/

/-- Case-insensitive match of a literal ASCII pattern (the `i` flag on the
QR URL regex). -/
def startsWithCI : List Char → List Char → Bool
  | [], _ => true
  | _ :: _, [] => false
  | p :: ps, c :: cs => Char.toLower p = Char.toLower c && startsWithCI ps cs

/-- The class `[A-Z0-9]` under the `i` flag: ASCII letters of either case and
digits. -/
def isAlnumCI (c : Char) : Bool := isCodeChar (Char.toUpper c)

/-- The literal `/download/` of the QR URL pattern. -/
def dlPattern : List Char := "/download/".data

/-- Scanning loop for `/\/download\/([A-Z0-9]+)/i`: at each start position,
match the literal case-insensitively, then require a non-empty run of
class characters (the greedy `+`); on failure resume one character further. -/
def urlCodeMatchGo : List Char → Option String
  | [] => none
  | cs@(_ :: tl) =>
    if startsWithCI dlPattern cs then
      let run := (cs.drop dlPattern.length).takeWhile isAlnumCI
      if run.isEmpty then urlCodeMatchGo tl else some ⟨run⟩
    else urlCodeMatchGo tl

/-- Leftmost capture of `result.match(/\/download\/([A-Z0-9]+)/i)` (App.tsx
line 267). -/
def urlCodeMatch (s : String) : Option String := urlCodeMatchGo s.data

/-- App.tsx lines 265-274: `handleQRScan`.  An empty scan result is falsy and
ignored.  Otherwise the captured code — or, failing a match, the entire
scanned text — is uppercased and stored as the download code without the
input normalization, the scanner is closed, and `fetchFileInfo` is invoked on
the (non-uppercased) code. -/
def handleQRScan (s : AppState) (result : String) (resp : InfoResp) :
    AppState × Bool :=
  if result = "" then (s, false)
  else
    let code := (urlCodeMatch result).getD result
    let s1 := { s with downloadCode := jsToUpper code, showQRScanner := false }
    fetchFileInfo s1 code resp

/-! ### Button-level entry points

The rendered controls gate the handlers through their `disabled`
attributes: the upload button is disabled while `loading` (App.tsx
line 398), the download button while the code is empty or `loading`
(line 475), and the Check File button only while the code is empty
(line 464) — not while `loading`. -/

/-- Clicking the upload button (App.tsx line 398): a no-op while `loading`
(the button is disabled), otherwise `uploadFileToServer`. -/
def clickUpload (s : AppState) (o : UploadOutcome) : AppState × Bool :=
  if s.loading then (s, false) else uploadFileToServer s o

/-- Clicking the download button (App.tsx line 475): a no-op while the code
is empty or while `loading`, otherwise `downloadFile`. -/
def clickDownload (s : AppState) (resp : DownloadResp) : AppState × Bool :=
  if s.downloadCode = "" ∨ s.loading then (s, false) else downloadFile s resp

/-- Clicking the Check File button (App.tsx line 464): a no-op only while the
code is empty — its `disabled` attribute does not mention `loading` —
otherwise `fetchFileInfo` on the stored code. -/
def clickCheckFile (s : AppState) (resp : InfoResp) : AppState × Bool :=
  if s.downloadCode = "" then (s, false)
  else fetchFileInfo s s.downloadCode resp

/-! ### Concrete sample data for counterexamples and witnesses -/

/-- A sample parsed info response. -/
def sampleInfo : FileInfo :=
  { original_name := "a.txt", file_size := 3, content_type := "text/plain",
    expires_at := "2026-01-01T00:00:00Z", time_remaining := 60 }

/-- A sample parsed upload response. -/
def sampleResp : FileUploadResponse :=
  { code := "ABC123", expires_at := "2026-01-01T00:00:00Z", file_size := 3 }

/-- A file below the size ceiling. -/
def smallFile : JSFile := { name := "a.txt", size := 3 }

/-- A file one byte above the size ceiling. -/
def bigFile : JSFile := { name := "big.bin", size := MAX_FILE_SIZE + 1 }

/-- The component's initial state (the `useState` initialisers of App.tsx
lines 21-34). -/
def initialState : AppState :=
  { activeTab := .upload, uploadFile := none, uploadResult := none,
    downloadCode := "", fileInfo := none, loading := false, error := "",
    success := "", dragOver := false, copied := false, uploadProgress := 0,
    showQRScanner := false, showQRGenerator := false, qrCodeDataUrl := "" }

/-- A busy session on the download tab with a stored code. -/
def stBusy : AppState :=
  { initialState with
    activeTab := .download, loading := true, downloadCode := "ABC123" }

/-- A session that has fetched a `FileInfo` for a stored code. -/
def stC10 : AppState :=
  { initialState with
    activeTab := .download, downloadCode := "ABC123",
    fileInfo := some sampleInfo }

/-- The RFC 5987 test header of the spec,
`attachment; filename*=UTF-8''caf%C3%A9.txt`. -/
def starHeader : String :=
  ⟨"attachment; filename*=UTF-8".data ++ [apos, apos] ++ "caf%C3%A9.txt".data⟩

/-- A header whose quoted filename contains a bare percent sign. -/
def pctHeader : String := "attachment; filename=\"100%.pdf\""

/-! ### Claim theorems -/

/-- Claim C2: the spec states that for a header with no plain `filename=`
parameter but with `filename*=UTF-8''<value>`, extraction returns the
percent-decoding of the value — `café.txt` for the spec's test header.  The
code disagrees: the first regex `filename[^;=\n]*=` also matches
`filename*=`, captures `UTF-8''caf%C3%A9.txt`, and the apostrophe-stripping
`replace(/['"]/g, '')` then yields `UTF-8caf%C3%A9.txt`, so the function
returns `UTF-8café.txt` and the code's own RFC 5987 branch never runs on
such headers. -/
theorem C2_star_header_eval :
    extractFilename (some starHeader) = some "UTF-8café.txt" ∧
    extractFilename (some starHeader) ≠ some "café.txt" := by
  decide

/-- Claim C8: the stored download-code field is the typed input uppercased,
with every character outside `[A-Z0-9]` deleted, truncated to 8 characters;
`"ab-3_9"` yields `"AB39"`, the result always matches the spec's description,
is at most 8 characters long, and consists only of class characters. -/
theorem C8_normalize_code :
    normalizeCode "ab-3_9" = "AB39" ∧
    ∀ input : String, normalizeCode input = normalizeCodeSpec input ∧
      (normalizeCode input).length ≤ 8 ∧
      (normalizeCode input).data.all isCodeChar = true := by
  refine ⟨by decide, fun input => ⟨rfl, ?_, ?_⟩⟩
  · show (((jsToUpper input).data.filter isCodeChar).take 8).length ≤ 8
    rw [List.length_take]
    exact min_le_left _ _
  · show (((jsToUpper input).data.filter isCodeChar).take 8).all isCodeChar = true
    rw [List.all_eq_true]
    intro c hc
    exact (List.mem_filter.1 (List.take_subset 8 _ hc)).2

/-- Claim C1 counterexample: in a busy state (the busy flag set, a code
stored), invoking the info-lookup submission — also through its rendered
Check File button, whose `disabled` attribute ignores `loading` — does
dispatch an HTTP request, so a second exchange is network-observable. -/
theorem C1_counterexample :
    stBusy.loading = true ∧
    (fetchFileInfo stBusy "ABC123" (.ok sampleInfo)).2 = true ∧
    (clickCheckFile stBusy (.ok sampleInfo)).2 = true := by
  decide

/-- Claim C1 (amended): while the busy flag is set, the upload and download
buttons are disabled, so those two submissions are no-ops that dispatch
nothing and leave the state unchanged; but the info lookup is not gated on
the busy flag — with a non-blank stored code, invoking it dispatches a
request even while busy.  None of the three submission functions themselves
consults the busy flag. -/
theorem C1_busy_gating (s : AppState) (o : UploadOutcome)
    (dresp : DownloadResp) (iresp : InfoResp) (h : s.loading = true)
    (hb : isBlank s.downloadCode = false) :
    clickUpload s o = (s, false) ∧
    clickDownload s dresp = (s, false) ∧
    (clickCheckFile s iresp).2 = true := by
  refine ⟨?_, ?_, ?_⟩
  · simp [clickUpload, h]
  · simp [clickDownload, h]
  · have hne : s.downloadCode ≠ "" := by
      intro he
      rw [he] at hb
      exact Bool.noConfusion ((rfl : isBlank "" = true) ▸ hb)
    simp [clickCheckFile, hne, fetchFileInfo, fetchStart, hb]

/-- Witness for `C1_busy_gating` at the concrete busy state `stBusy`. -/
theorem C1_busy_gating_witness :
    (stBusy.loading = true ∧ isBlank stBusy.downloadCode = false) ∧
    (clickUpload stBusy .netError = (stBusy, false) ∧
     clickDownload stBusy (.netError "x") = (stBusy, false) ∧
     (clickCheckFile stBusy (.ok sampleInfo)).2 = true) :=
  ⟨⟨by decide, by decide⟩,
   C1_busy_gating stBusy .netError (.netError "x") (.ok sampleInfo)
     (by decide) (by decide)⟩

/-- Claim C3 counterexample: an upload completing with status 400 and a JSON
body that lacks a `detail` field produces the banner `Upload failed` — not
the generic message including the numeric status that the claim requires for
every non-`detail` body (that message only appears when the body fails to
parse as JSON). -/
theorem C3_counterexample :
    (uploadFileToServer { initialState with uploadFile := some smallFile }
      (.load 400 (.json sampleResp none))).1.error = "Upload failed" ∧
    (uploadFileToServer { initialState with uploadFile := some smallFile }
      (.load 400 (.json sampleResp none))).1.error ≠
        "Upload failed with status 400" := by
  decide

/-- Claim C3 (amended): for an upload completing with a non-2xx status, the
banner is the body's `detail` string when the body is JSON with a non-empty
`detail`; it is `Upload failed` (without the status) when the body is JSON
with a missing or empty `detail`; and it is
`Upload failed with status <code>` only when the body is not parseable JSON.
In every such case upload progress is reset to 0 and the busy flag is
cleared. -/
theorem C3_upload_error_paths (s : AppState) (f : JSFile) (status : Nat)
    (v : FileUploadResponse) (d : String) (b : UploadBody)
    (hf : s.uploadFile = some f) (h2 : ¬(200 ≤ status ∧ status < 300))
    (hd : d ≠ "") :
    (uploadFileToServer s (.load status (.json v (some d)))).1.error = d ∧
    (uploadFileToServer s (.load status (.json v none))).1.error =
      "Upload failed" ∧
    (uploadFileToServer s (.load status .notJson)).1.error =
      "Upload failed with status " ++ toString status ∧
    (uploadFileToServer s (.load status b)).1.uploadProgress = 0 ∧
    (uploadFileToServer s (.load status b)).1.loading = false := by
  refine ⟨?_, ?_, ?_, ?_, ?_⟩ <;>
    cases b <;>
    simp [uploadFileToServer, uploadStart, hf, uploadFinish, uploadErrorMsg,
      h2, hd]

/-- Witness for `C3_upload_error_paths` at status 400 and detail
`file too large` (the spec's own test vector). -/
theorem C3_upload_error_paths_witness :
    ({ initialState with uploadFile := some smallFile } : AppState).uploadFile
        = some smallFile ∧
    ¬(200 ≤ 400 ∧ 400 < 300) ∧ "file too large" ≠ "" ∧
    ((uploadFileToServer { initialState with uploadFile := some smallFile }
        (.load 400 (.json sampleResp (some "file too large")))).1.error =
      "file too large" ∧
     (uploadFileToServer { initialState with uploadFile := some smallFile }
        (.load 400 (.json sampleResp none))).1.error = "Upload failed" ∧
     (uploadFileToServer { initialState with uploadFile := some smallFile }
        (.load 400 .notJson)).1.error =
      "Upload failed with status " ++ toString 400 ∧
     (uploadFileToServer { initialState with uploadFile := some smallFile }
        (.load 400 .notJson)).1.uploadProgress = 0 ∧
     (uploadFileToServer { initialState with uploadFile := some smallFile }
        (.load 400 .notJson)).1.loading = false) :=
  ⟨by decide, by decide, by decide,
   C3_upload_error_paths { initialState with uploadFile := some smallFile }
     smallFile 400 sampleResp "file too large" .notJson (by decide)
     (by decide) (by decide)⟩

/-- Claim C10: filename extraction is not total — on the header
`attachment; filename="100%.pdf"` the percent-decoding throws — and a
download whose HTTP response succeeded is then surfaced as an error banner
while the code field and the stored `FileInfo` are left uncleared. -/
theorem C10_percent_throw :
    extractFilename (some pctHeader) = none ∧
    (downloadFile stC10 (.ok (some pctHeader))).2 = true ∧
    (downloadFile stC10 (.ok (some pctHeader))).1.error = uriErrorMsg ∧
    uriErrorMsg ≠ "" ∧
    (downloadFile stC10 (.ok (some pctHeader))).1.downloadCode = "ABC123" ∧
    (downloadFile stC10 (.ok (some pctHeader))).1.fileInfo = some sampleInfo ∧
    (downloadFile stC10 (.ok (some pctHeader))).1.success = "" := by
  decide

/-- Claim C4 counterexample: a progress event with 1 of 200 bytes sent is
stored as 1 percent — `Math.round(0.5) = 1` — while the claimed formula
`floor(bytesSent / totalBytes * 100)` gives 0. -/
theorem C4_counterexample :
    (onUploadProgress initialState true 1 200).uploadProgress = 1 ∧
    ⌊((1 : ℚ) / 200) * 100⌋ = 0 ∧ (1 : ℤ) ≠ 0 := by
  refine ⟨?_, ?_, by decide⟩
  · show uploadProgressValue 1 200 = 1
    have h : ((1 : ℕ) : ℚ) / ((200 : ℕ) : ℚ) * 100 + 1 / 2 = 1 := by
      norm_num
    rw [uploadProgressValue, jsRound, h]
    exact Int.floor_one
  · rw [show ((1 : ℚ) / 200) * 100 = 1 / 2 by norm_num]
    rw [Int.floor_eq_zero_iff]
    constructor <;> norm_num

/-- Claim C4 (amended): the stored percentage is the half-up rounding
`⌊bytesSent / totalBytes * 100 + 1/2⌋` (JavaScript `Math.round`), not the
floor; for every event with `0 ≤ bytesSent ≤ totalBytes` and a positive
total it lies within `[0, 100]`, and an event without a computable length
changes nothing. -/
theorem C4_progress_rounding (s : AppState) (loaded total : ℕ)
    (h1 : 0 < total) (h2 : loaded ≤ total) :
    (onUploadProgress s true loaded total).uploadProgress =
      ⌊((loaded : ℚ) / (total : ℚ)) * 100 + 1 / 2⌋ ∧
    0 ≤ (onUploadProgress s true loaded total).uploadProgress ∧
    (onUploadProgress s true loaded total).uploadProgress ≤ 100 ∧
    onUploadProgress s false loaded total = s := by
  have ht : (0 : ℚ) < (total : ℚ) := by exact_mod_cast h1
  have hx0 : (0 : ℚ) ≤ (loaded : ℚ) / (total : ℚ) * 100 := by positivity
  have hx1 : (loaded : ℚ) / (total : ℚ) * 100 ≤ 100 := by
    have hq : (loaded : ℚ) / (total : ℚ) ≤ 1 := by
      rw [div_le_one ht]
      exact_mod_cast h2
    nlinarith
  have hval : (onUploadProgress s true loaded total).uploadProgress =
      ⌊((loaded : ℚ) / (total : ℚ)) * 100 + 1 / 2⌋ := rfl
  refine ⟨hval, ?_, ?_, rfl⟩
  · rw [hval]
    exact Int.le_floor.2 (by push_cast; linarith)
  · rw [hval]
    have : ⌊((loaded : ℚ) / (total : ℚ)) * 100 + 1 / 2⌋ < 101 :=
      Int.floor_lt.2 (by push_cast; linarith)
    omega

/-- Witness for `C4_progress_rounding` at 1 of 2 bytes sent. -/
theorem C4_progress_rounding_witness :
    0 < 2 ∧ 1 ≤ 2 ∧
    ((onUploadProgress initialState true 1 2).uploadProgress =
       ⌊((1 : ℚ) / (2 : ℚ)) * 100 + 1 / 2⌋ ∧
     0 ≤ (onUploadProgress initialState true 1 2).uploadProgress ∧
     (onUploadProgress initialState true 1 2).uploadProgress ≤ 100 ∧
     onUploadProgress initialState false 1 2 = initialState) :=
  ⟨by decide, by decide,
   C4_progress_rounding initialState 1 2 (by decide) (by decide)⟩

/-- Claim C5 counterexample: selecting an oversized file from a state that
holds a success banner, an upload result and the copied flag does not leave
everything but the error banner unchanged — it also clears those three
components. -/
theorem C5_counterexample :
    bigFile.size > MAX_FILE_SIZE ∧
    (handleFileSelect { initialState with
        success := "Uploaded!", uploadResult := some sampleResp,
        copied := true } bigFile).success = "" ∧
    (handleFileSelect { initialState with
        success := "Uploaded!", uploadResult := some sampleResp,
        copied := true } bigFile).uploadResult = none ∧
    (handleFileSelect { initialState with
        success := "Uploaded!", uploadResult := some sampleResp,
        copied := true } bigFile).copied = false := by
  decide

/-- Claim C5 (amended): selecting a file larger than `MAX_FILE_SIZE` (50 MiB)
is rejected with the error banner and issues no network request, but in
addition to the error banner it clears the success banner, the previous
upload result and the copied flag (all other components, the selected file
handle included, are unchanged); selecting a file within the ceiling succeeds,
stores the handle and clears any prior error or success banner (along with
the previous upload result and copied flag). -/
theorem C5_file_select (s : AppState) (f g : JSFile)
    (hf : f.size > MAX_FILE_SIZE) (hg : g.size ≤ MAX_FILE_SIZE) :
    handleFileSelect s f =
      { s with error := maxFileSizeMsg, success := "",
               uploadResult := none, copied := false } ∧
    handleFileSelect s g =
      { s with error := "", success := "", uploadResult := none,
               copied := false, uploadFile := some g } := by
  constructor
  · simp only [handleFileSelect, if_pos hf]
  · simp only [handleFileSelect, if_neg (Nat.not_lt.mpr hg)]

/-- Witness for `C5_file_select` at the two concrete files. -/
theorem C5_file_select_witness :
    bigFile.size > MAX_FILE_SIZE ∧ smallFile.size ≤ MAX_FILE_SIZE ∧
    (handleFileSelect initialState bigFile =
       { initialState with error := maxFileSizeMsg, success := "",
                           uploadResult := none, copied := false } ∧
     handleFileSelect initialState smallFile =
       { initialState with error := "", success := "", uploadResult := none,
                           copied := false, uploadFile := some smallFile }) :=
  ⟨by decide, by decide,
   C5_file_select initialState bigFile smallFile (by decide) (by decide)⟩

/-- Claim C6 counterexample: changing the download code field (here from
`AB` to `ABC`) leaves the stored `FileInfo` in place — the input's `onChange`
handler only writes the code field and does not invalidate the info. -/
theorem C6_counterexample :
    (downloadCodeChange { initialState with
        fileInfo := some sampleInfo, downloadCode := "AB" }
      "ABC").downloadCode = "ABC" ∧
    (downloadCodeChange { initialState with
        fileInfo := some sampleInfo, downloadCode := "AB" }
      "ABC").fileInfo = some sampleInfo ∧
    some sampleInfo ≠ (none : Option FileInfo) := by
  decide

/-- Claim C6 (amended): the stored `FileInfo` survives both a change of the
download code field and a failed download attempt; it is cleared only when a
download completes successfully (with a filename extraction that does not
throw).  (A failed info lookup also clears it, per `fetchFinish`.) -/
theorem C6_fileinfo_lifecycle (s : AppState) (input : String) (b : FailBody)
    (cd : Option String) (fn : String) (hcd : extractFilename cd = some fn)
    (hnb : isBlank s.downloadCode = false) :
    (downloadCodeChange s input).fileInfo = s.fileInfo ∧
    (downloadFile s (.fail b)).1.fileInfo = s.fileInfo ∧
    (downloadFile s (.ok cd)).1.fileInfo = none := by
  refine ⟨rfl, ?_, ?_⟩
  · simp [downloadFile, downloadStart, hnb, downloadFinish]
  · simp [downloadFile, downloadStart, hnb, downloadFinish, hcd]

/-- Witness for `C6_fileinfo_lifecycle` at a concrete session and a header
whose filename decodes. -/
theorem C6_fileinfo_lifecycle_witness :
    extractFilename (some "attachment; filename=a.txt") = some "a.txt" ∧
    isBlank stC10.downloadCode = false ∧
    ((downloadCodeChange stC10 "x").fileInfo = stC10.fileInfo ∧
     (downloadFile stC10 (.fail .noDetail)).1.fileInfo = stC10.fileInfo ∧
     (downloadFile stC10
        (.ok (some "attachment; filename=a.txt"))).1.fileInfo = none) :=
  ⟨by decide, by decide,
   C6_fileinfo_lifecycle stC10 "x" .noDetail
     (some "attachment; filename=a.txt") "a.txt" (by decide) (by decide)⟩

/-- Claim C7 counterexample: starting an info lookup from a state holding a
success banner dispatches the request with the success banner still in
place — submissions clear only the error banner, so the banner no longer
reflects only the most recent exchange. -/
theorem C7_counterexample :
    (fetchStart { initialState with
        success := "Uploaded!", downloadCode := "ABC123" } "ABC123").2
      = true ∧
    (fetchStart { initialState with
        success := "Uploaded!", downloadCode := "ABC123" } "ABC123").1.success
      = "Uploaded!" ∧
    ("Uploaded!" : String) ≠ "" := by
  decide

/-- Claim C7 (amended): each of the three submissions clears the previous
error banner before its request is dispatched, but none of them clears a
previous success banner — the success message of an earlier exchange
survives the start of a new one. -/
theorem C7_clears_error_only (s : AppState) (code : String) (f : JSFile)
    (hc : isBlank code = false) (hf : s.uploadFile = some f)
    (hd : isBlank s.downloadCode = false) :
    (fetchStart s code).2 = true ∧ (fetchStart s code).1.error = "" ∧
    (fetchStart s code).1.success = s.success ∧
    (uploadStart s).2 = true ∧ (uploadStart s).1.error = "" ∧
    (uploadStart s).1.success = s.success ∧
    (downloadStart s).2 = true ∧ (downloadStart s).1.error = "" ∧
    (downloadStart s).1.success = s.success := by
  refine ⟨?_, ?_, ?_, ?_, ?_, ?_, ?_, ?_, ?_⟩ <;>
    simp [fetchStart, uploadStart, downloadStart, hc, hf, hd]

/-- Witness for `C7_clears_error_only` at a concrete session holding a
success banner. -/
theorem C7_clears_error_only_witness :
    isBlank "XYZ" = false ∧
    ({ initialState with
        success := "Uploaded!", downloadCode := "ABC123",
        uploadFile := some smallFile } : AppState).uploadFile
      = some smallFile ∧
    isBlank ({ initialState with
        success := "Uploaded!", downloadCode := "ABC123",
        uploadFile := some smallFile } : AppState).downloadCode = false ∧
    ((fetchStart { initialState with
        success := "Uploaded!", downloadCode := "ABC123",
        uploadFile := some smallFile } "XYZ").2 = true ∧
     (fetchStart { initialState with
        success := "Uploaded!", downloadCode := "ABC123",
        uploadFile := some smallFile } "XYZ").1.error = "" ∧
     (fetchStart { initialState with
        success := "Uploaded!", downloadCode := "ABC123",
        uploadFile := some smallFile } "XYZ").1.success =
       ({ initialState with
        success := "Uploaded!", downloadCode := "ABC123",
        uploadFile := some smallFile } : AppState).success ∧
     (uploadStart { initialState with
        success := "Uploaded!", downloadCode := "ABC123",
        uploadFile := some smallFile }).2 = true ∧
     (uploadStart { initialState with
        success := "Uploaded!", downloadCode := "ABC123",
        uploadFile := some smallFile }).1.error = "" ∧
     (uploadStart { initialState with
        success := "Uploaded!", downloadCode := "ABC123",
        uploadFile := some smallFile }).1.success =
       ({ initialState with
        success := "Uploaded!", downloadCode := "ABC123",
        uploadFile := some smallFile } : AppState).success ∧
     (downloadStart { initialState with
        success := "Uploaded!", downloadCode := "ABC123",
        uploadFile := some smallFile }).2 = true ∧
     (downloadStart { initialState with
        success := "Uploaded!", downloadCode := "ABC123",
        uploadFile := some smallFile }).1.error = "" ∧
     (downloadStart { initialState with
        success := "Uploaded!", downloadCode := "ABC123",
        uploadFile := some smallFile }).1.success =
       ({ initialState with
        success := "Uploaded!", downloadCode := "ABC123",
        uploadFile := some smallFile } : AppState).success) :=
  ⟨by decide, by decide, by decide,
   C7_clears_error_only { initialState with
       success := "Uploaded!", downloadCode := "ABC123",
       uploadFile := some smallFile } "XYZ" smallFile (by decide) (by decide)
     (by decide)⟩

/-- Claim C9 counterexample: the whitespace-only scan result `" "` does not
match the URL pattern, and its uppercasing (itself) is stored as the download
code, but no info lookup is dispatched for it — `fetchFileInfo` bails out on
a blank code. -/
theorem C9_counterexample :
    urlCodeMatch " " = none ∧
    (handleQRScan { initialState with downloadCode := "OLD1" } " "
      (.ok sampleInfo)).1.downloadCode = " " ∧
    (handleQRScan { initialState with downloadCode := "OLD1" } " "
      (.ok sampleInfo)).2 = false := by
  decide

/-- Claim C9 (amended): when a non-empty QR scan result does not match the
URL pattern `/download/([A-Z0-9]+)` (case-insensitively), the entire scanned
text, uppercased but neither filtered to `[A-Z0-9]` nor truncated to 8
characters, is stored as the download code; an info lookup is then dispatched
for it provided the text is not whitespace-only (an empty result is ignored
entirely, and a whitespace-only one is stored without any lookup). -/
theorem C9_qr_fallback (s : AppState) (r : String) (resp : InfoResp)
    (h0 : r ≠ "") (hm : urlCodeMatch r = none) (hb : isBlank r = false) :
    (handleQRScan s r resp).1.downloadCode = jsToUpper r ∧
    (handleQRScan s r resp).2 = true := by
  cases resp <;>
    simp [handleQRScan, h0, hm, fetchFileInfo, fetchStart, fetchFinish, hb]

/-- Witness for `C9_qr_fallback` at a scanned text that the typed-input
normalization would have mangled: 21 characters, a space and a `+` kept. -/
theorem C9_qr_fallback_witness :
    "hello world+123456789" ≠ "" ∧
    urlCodeMatch "hello world+123456789" = none ∧
    isBlank "hello world+123456789" = false ∧
    ((handleQRScan initialState "hello world+123456789"
        (.ok sampleInfo)).1.downloadCode = jsToUpper "hello world+123456789" ∧
     (handleQRScan initialState "hello world+123456789"
        (.ok sampleInfo)).2 = true) :=
  ⟨by decide, by decide, by decide,
   C9_qr_fallback initialState "hello world+123456789" (.ok sampleInfo)
     (by decide) (by decide) (by decide)⟩

end FileShare
